import Mathlib

/-!
Shallow embedding of the birdwatcher core: the tiled detection and NMS engine
of `src/src/bird-detector.js` (with the zoom-crop variant of
`src/unnamed/part_000`), the recording state machine of `src/src/app.js`, and
the capture wrapper of `src/src/recorder.js`.  JavaScript numbers are modelled
as rationals (`ℚ`) with `Int.floor`/`Int.ceil` for `Math.floor`/`Math.ceil`;
frame dimensions and chunk sizes as integers/naturals; the asynchronous
recorder promise as an explicit outcome value.
-/

namespace Birdwatcher

/-- A bounding box `[x, y, w, h]` in source-frame pixel coordinates. -/
abbrev BBox := ℚ × ℚ × ℚ × ℚ

/-- A detection `{class, score, bbox}` as produced by `BirdDetector`
(src/src/bird-detector.js).  `class` is a Lean keyword, so the field is
named `cls`. -/
structure Det where
  cls : String
  score : ℚ
  bbox : BBox
deriving DecidableEq, Repr

/-- A raw scorer candidate `{class, score, bbox}` as returned by the
COCO-SSD model (the opaque scorer adapter). -/
structure Pred where
  cls : String
  score : ℚ
  bbox : BBox
deriving DecidableEq, Repr

/-- `BirdDetector.iou` (src/src/bird-detector.js:166-177): intersection over
union of two bboxes `[x, y, w, h]`; when the union area is not positive the
result is `0`. -/
def iou (a b : BBox) : ℚ :=
  let ax1 := a.1
  let ay1 := a.2.1
  let ax2 := a.1 + a.2.2.1
  let ay2 := a.2.1 + a.2.2.2
  let bx1 := b.1
  let by1 := b.2.1
  let bx2 := b.1 + b.2.2.1
  let by2 := b.2.1 + b.2.2.2
  let ix1 := max ax1 bx1
  let iy1 := max ay1 by1
  let ix2 := min ax2 bx2
  let iy2 := min ay2 by2
  let intersection := max 0 (ix2 - ix1) * max 0 (iy2 - iy1)
  let union := a.2.2.1 * a.2.2.2 + b.2.2.1 * b.2.2.2 - intersection
  if union > 0 then intersection / union else 0

/-- The suppression test of the inner loop of `BirdDetector.nms`
(src/src/bird-detector.js:153-154): same class and IoU strictly above the
threshold. -/
def suppresses (thr : ℚ) (d e : Det) : Bool :=
  decide (d.cls = e.cls) && decide (iou d.bbox e.bbox > thr)

/-- The greedy sweep of `BirdDetector.nms` (src/src/bird-detector.js:144-160)
in recursive form: the head of the score-sorted list is kept, every later
detection it suppresses is removed from further consideration (suppressed
entries are never re-considered as suppressors), and the sweep continues on
the remainder. -/
def nmsLoop (thr : ℚ) : List Det → List Det
  | [] => []
  | d :: rest => d :: nmsLoop thr (rest.filter fun e => !(suppresses thr d e))
termination_by l => l.length
decreasing_by
  simp only [List.length_cons]
  exact Nat.lt_succ_of_le (List.length_filter_le _ _)

/-- The sort comparator `(a, b) => b.score - a.score` of `BirdDetector.nms`
(src/src/bird-detector.js:142): score descending, ties keeping original
order (JavaScript `Array.prototype.sort` is stable). -/
def scoreDesc (a b : Det) : Bool :=
  decide (b.score ≤ a.score)

/-- `BirdDetector.nms` (src/src/bird-detector.js:138-161): stable sort by
score descending, then the greedy suppression sweep. -/
def nms (thr : ℚ) (dets : List Det) : List Det :=
  nmsLoop thr (dets.mergeSort scoreDesc)

/-- The filter predicate of `BirdDetector.filterPredictions`
(src/src/bird-detector.js:185-187): target class and score at or above the
confidence threshold. -/
def keepPrediction (targetClasses : List String) (confidenceThreshold : ℚ)
    (pred : Pred) : Bool :=
  targetClasses.contains pred.cls && decide (pred.score ≥ confidenceThreshold)

/-- `BirdDetector.filterPredictions` (src/src/bird-detector.js:184-193). -/
def filterPredictions (targetClasses : List String) (confidenceThreshold : ℚ)
    (predictions : List Pred) : List Det :=
  (predictions.filter (keepPrediction targetClasses confidenceThreshold)).map
    fun pred => { cls := pred.cls, score := pred.score, bbox := pred.bbox }

/-- The per-tile keep condition inside `BirdDetector.detect`
(src/src/bird-detector.js:112-113): the same class-and-threshold test applied
to each tile's raw predictions. -/
def tileKeep (targetClasses : List String) (confidenceThreshold : ℚ)
    (pred : Pred) : Bool :=
  targetClasses.contains pred.cls && decide (pred.score ≥ confidenceThreshold)

/-- Tile width `Math.ceil(srcWidth / (grid - (grid - 1) * overlap))` from
`BirdDetector.detect` (src/src/bird-detector.js:81); line 82 applies the same
formula to the height. -/
def tileW (srcWidth : ℤ) (grid : ℕ) (overlap : ℚ) : ℤ :=
  ⌈(srcWidth : ℚ) / ((grid : ℚ) - ((grid : ℚ) - 1) * overlap)⌉

/-- Step `Math.floor(tileW * (1 - overlap))` from `BirdDetector.detect`
(src/src/bird-detector.js:83-84). -/
def stepX (srcWidth : ℤ) (grid : ℕ) (overlap : ℚ) : ℤ :=
  ⌊(tileW srcWidth grid overlap : ℚ) * (1 - overlap)⌋

/-- Tile origin `sx = Math.min(col * stepX, srcWidth - tileW)` from
`BirdDetector.detect` (src/src/bird-detector.js:98-99). -/
def tileOrigin (srcWidth : ℤ) (grid : ℕ) (overlap : ℚ) (col : ℕ) : ℤ :=
  min ((col : ℤ) * stepX srcWidth grid overlap)
    (srcWidth - tileW srcWidth grid overlap)

/-- JavaScript `Math.round q = ⌊q + 1/2⌋` (round half toward positive
infinity). -/
def jsRound (q : ℚ) : ℤ := ⌊q + 1 / 2⌋

/-- `cropW = Math.round(srcWidth / softwareZoom)` from the zoom variant of
`BirdDetector.detect` (src/unnamed/part_000:83); line 84 applies the same
formula to the height. -/
def cropW (srcWidth : ℤ) (softwareZoom : ℚ) : ℤ :=
  jsRound ((srcWidth : ℚ) / softwareZoom)

/-- `cropOffsetX = Math.round((srcWidth - cropW) / 2)` from the zoom variant
of `BirdDetector.detect` (src/unnamed/part_000:85-86). -/
def cropOffsetX (srcWidth : ℤ) (softwareZoom : ℚ) : ℤ :=
  jsRound (((srcWidth - cropW srcWidth softwareZoom : ℤ) : ℚ) / 2)

/-- The bbox remap of `BirdDetector.detect` (src/src/bird-detector.js:117-122)
with the zoom-crop offsets of the zoom variant (src/unnamed/part_000:155-160);
the non-zoom file is the case `cx = cy = 0`. -/
def remapBBox (sx sy cx cy : ℤ) : BBox → BBox
  | (x, y, w, h) => (x + (sx : ℚ) + (cx : ℚ), y + (sy : ℚ) + (cy : ℚ), w, h)

/-- The app states of src/src/app.js:13 (plus `stopping`, set at
src/src/app.js:341 and 354). -/
inductive AppState
  | idle
  | detecting
  | recording
  | stopping
  | cooldown
  | paused
deriving DecidableEq, Repr

/-- The stop reasons written by `App.stopRecordingEarly` and
`App.autoStopRecording` (src/src/app.js:343, 356); `none` models the
JavaScript `null` reset at src/src/app.js:242. -/
inductive StopReason
  | manual
  | auto
deriving DecidableEq, Repr

/-- The `App` fields the recording state machine reads and writes
(src/src/app.js:13-23): timestamps as naturals, the pending
`noMoreBirdTimeout` handle as a flag. -/
structure AppSt where
  state : AppState
  lastBirdSeenTime : Option ℕ
  noMoreBirdTimeout : Bool
  stopReason : Option StopReason
  recordingStartTime : Option ℕ
deriving DecidableEq, Repr

/-- The synchronous prefix of `App.startRecording` (src/src/app.js:240-250):
the state becomes `recording`, the stop reason is reset to null and the start
time recorded, before the code suspends awaiting the recorder promise. -/
def startRecordingSync (s : AppSt) (now : ℕ) : AppSt :=
  { s with state := .recording, stopReason := none, recordingStartTime := some now }

/-- One run of `App.detectionLoop` (src/src/app.js:173-238) up to the point
where control returns to the event loop.  `hasBird` abstracts
`detections.length > 0`, `now` the `Date.now()` reading.  In the
non-recording positive branch the loop sets `detecting` and then calls
`startRecording`, whose synchronous prefix runs inside the same cycle, so the
post-cycle state is the one `startRecordingSync` leaves. -/
def detectionCycle (s : AppSt) (hasBird : Bool) (now : ℕ) : AppSt :=
  if s.state = .cooldown ∨ s.state = .paused ∨ s.state = .stopping then
    s
  else if s.state = .recording then
    if hasBird then
      { s with lastBirdSeenTime := some now, noMoreBirdTimeout := false }
    else if !s.noMoreBirdTimeout && s.lastBirdSeenTime.isSome then
      { s with noMoreBirdTimeout := true }
    else
      s
  else if hasBird then
    startRecordingSync { s with lastBirdSeenTime := some now, state := .detecting } now
  else if s.state = .detecting then
    { s with state := .idle }
  else
    s

/-- The continuation of `App.startRecording` after the recorder promise
settles (src/src/app.js:252-321): `outcome` is the promise result (the blob
size in bytes on success), `saveOk` whether `saveClip` succeeds (a thrown
save lands in the same catch block as a rejected recorder promise).  Returns
the new state and whether a clip was persisted. -/
def finalizeRecording (s : AppSt) (outcome : Except String ℕ) (saveOk : Bool) :
    AppSt × Bool :=
  match outcome with
  | .error _ =>
      ({ s with noMoreBirdTimeout := false, state := .idle }, false)
  | .ok blobSize =>
      if blobSize = 0 then
        ({ s with noMoreBirdTimeout := false, state := .idle }, false)
      else if !saveOk then
        ({ s with noMoreBirdTimeout := false, state := .idle }, false)
      else if s.stopReason = some .manual then
        ({ s with noMoreBirdTimeout := false, state := .paused }, true)
      else
        ({ s with noMoreBirdTimeout := false, state := .cooldown }, true)

/-- The cooldown timer callback of `App.startRecording`
(src/src/app.js:303-308). -/
def cooldownElapsed (s : AppSt) : AppSt :=
  if s.state = .cooldown then { s with state := .idle } else s

/-- `App.stopRecordingEarly` (src/src/app.js:338-345). -/
def stopRecordingEarly (s : AppSt) : AppSt :=
  if s.state ≠ .recording then s
  else { s with state := .stopping, stopReason := some .manual }

/-- `App.autoStopRecording` (src/src/app.js:348-358). -/
def autoStopRecording (s : AppSt) : AppSt :=
  if s.state ≠ .recording then s
  else { s with state := .stopping, stopReason := some .auto }

/-- The `Recorder` fields touched by `start`/`stop`
(src/src/recorder.js:12-15); the pending promise is modelled as a token. -/
structure RecorderSt where
  chunks : List ℕ
  isRecording : Bool
  recordingPromise : Option ℕ
deriving DecidableEq, Repr

/-- `Recorder.start` (src/src/recorder.js:32-43): when already recording it
returns the existing pending promise and changes nothing; otherwise it resets
the chunk list, marks recording, and installs a fresh promise. -/
def Recorder.start (s : RecorderSt) (freshPromise : ℕ) : RecorderSt × Option ℕ :=
  if s.isRecording then
    (s, s.recordingPromise)
  else
    let s1 : RecorderSt :=
      { chunks := [], isRecording := true, recordingPromise := some freshPromise }
    (s1, s1.recordingPromise)

/-- The `ondataavailable` handler (src/src/recorder.js:50-54): a chunk is
pushed only when its size is positive. -/
def pushChunk (chunks : List ℕ) (sz : ℕ) : List ℕ :=
  if sz > 0 then chunks ++ [sz] else chunks

/-- The chunk list accumulated over a recording session from the sizes of the
`ondataavailable` events. -/
def recordedChunks (events : List ℕ) : List ℕ :=
  events.foldl pushChunk []

/-- The `onstop` handler (src/src/recorder.js:56-66): an empty chunk list
rejects the recording promise; the blob size is the total chunk size and a
zero-size blob also rejects; otherwise the promise resolves with the blob. -/
def recorderOnStop (chunks : List ℕ) : Except String ℕ :=
  if chunks = [] then .error "No data recorded - chunks empty"
  else
    let blobSize := chunks.sum
    if blobSize = 0 then .error "Recording produced empty file"
    else .ok blobSize

/-- The initial `App` field values (src/src/app.js:13-23). -/
def idleInit : AppSt :=
  { state := .idle
    lastBirdSeenTime := none
    noMoreBirdTimeout := false
    stopReason := none
    recordingStartTime := none }

/-- An `App` whose recording has just been stopped automatically
(src/src/app.js:348-358): state `stopping`, stop reason `auto`. -/
def stoppingAuto : AppSt :=
  { state := .stopping
    lastBirdSeenTime := some 7
    noMoreBirdTimeout := false
    stopReason := some .auto
    recordingStartTime := some 3 }

theorem tileW_1280 : tileW 1280 2 (1 / 4) = 732 := by
  norm_num [tileW, Int.ceil_eq_iff]

theorem stepX_1280 : stepX 1280 2 (1 / 4) = 549 := by
  rw [stepX, tileW_1280]; norm_num [Int.floor_eq_iff]

theorem tileW_720 : tileW 720 2 (1 / 4) = 412 := by
  norm_num [tileW, Int.ceil_eq_iff]

theorem stepX_720 : stepX 720 2 (1 / 4) = 309 := by
  rw [stepX, tileW_720]; norm_num [Int.floor_eq_iff]

/-- C2 counterexample: on a 1280-wide frame with `tileGrid = 2` and
`tileOverlap = 0.25`, `detect` computes tile width `⌈1280 / 1.75⌉ = 732`
(the claim says 731), horizontal step `⌊732 · 0.75⌋ = 549` (the claim says
548), and second tile origin `min(549, 1280 − 732) = 548` (the claim says
549). -/
theorem tiling_1280_claimed_values_false :
    tileW 1280 2 (1 / 4) = 732 ∧ tileW 1280 2 (1 / 4) ≠ 731 ∧
    stepX 1280 2 (1 / 4) = 549 ∧ stepX 1280 2 (1 / 4) ≠ 548 ∧
    tileOrigin 1280 2 (1 / 4) 1 = 548 ∧ tileOrigin 1280 2 (1 / 4) 1 ≠ 549 := by
  have ht := tileW_1280
  have hs := stepX_1280
  have ho : tileOrigin 1280 2 (1 / 4) 1 = 548 := by
    rw [tileOrigin, stepX_1280, tileW_1280]; norm_num [min_def]
  refine ⟨ht, ?_, hs, ?_, ho, ?_⟩ <;> omega

/-- C2 (amended): frame 1280×720, `tileGrid = 2`, `tileOverlap = 0.25`:
tile size `⌈1280/1.75⌉ = 732` wide and `⌈720/1.75⌉ = 412` high, steps
`⌊732·0.75⌋ = 549` and `⌊412·0.75⌋ = 309`, and the four tile origins have
x-coordinates `{0, min(549, 548)} = {0, 548}` and y-coordinates
`{0, min(309, 308)} = {0, 308}`. -/
theorem tiling_1280x720_grid2_values :
    tileW 1280 2 (1 / 4) = 732 ∧ stepX 1280 2 (1 / 4) = 549 ∧
    tileOrigin 1280 2 (1 / 4) 0 = 0 ∧ tileOrigin 1280 2 (1 / 4) 1 = 548 ∧
    tileW 720 2 (1 / 4) = 412 ∧ stepX 720 2 (1 / 4) = 309 ∧
    tileOrigin 720 2 (1 / 4) 0 = 0 ∧ tileOrigin 720 2 (1 / 4) 1 = 308 := by
  refine ⟨tileW_1280, stepX_1280, ?_, ?_, tileW_720, stepX_720, ?_, ?_⟩ <;>
    · rw [tileOrigin]
      first
        | rw [stepX_1280, tileW_1280]
        | rw [stepX_720, tileW_720]
      norm_num [min_def]

/-- C3 counterexample: the degenerate box `[0, 0, 0, 0]` has non-negative
width and height, yet `iou` of it with itself is `0`, not `1` (the zero-union
guard of src/src/bird-detector.js:176 fires). -/
theorem iou_self_degenerate_ne_one :
    (0 : ℚ) ≤ 0 ∧ iou (0, 0, 0, 0) (0, 0, 0, 0) = 0 ∧
      iou (0, 0, 0, 0) (0, 0, 0, 0) ≠ 1 := by
  norm_num [iou]

/-- C3 (amended): for every box with positive width and height,
`iou(a, a) = 1`. -/
theorem iou_self_eq_one (x y w h : ℚ) (hw : 0 < w) (hh : 0 < h) :
    iou (x, y, w, h) (x, y, w, h) = 1 := by
  have hwh : 0 < w * h := mul_pos hw hh
  simp only [iou, max_self, min_self, add_sub_cancel_left,
    max_eq_right hw.le, max_eq_right hh.le]
  rw [if_pos hwh, div_self (ne_of_gt hwh)]

theorem iou_self_eq_one_witness :
    (0 : ℚ) < 2 ∧ (0 : ℚ) < 3 ∧ iou (5, 7, 2, 3) (5, 7, 2, 3) = 1 :=
  ⟨by norm_num, by norm_num, iou_self_eq_one 5 7 2 3 (by norm_num) (by norm_num)⟩

/-- C10: the confidence filter is inclusive at the boundary: a candidate
whose class is in the target set is kept exactly when its score is at least
the threshold, both in `filterPredictions` and in the per-tile filter of
`detect`; in particular a score exactly equal to the threshold is kept. -/
theorem confidence_filter_boundary (targetClasses : List String) (thr : ℚ)
    (pred : Pred) (hcls : pred.cls ∈ targetClasses) :
    (keepPrediction targetClasses thr pred = true ↔ thr ≤ pred.score) ∧
    (tileKeep targetClasses thr pred = true ↔ thr ≤ pred.score) ∧
    (pred.score = thr →
      keepPrediction targetClasses thr pred = true ∧
      tileKeep targetClasses thr pred = true) := by
  refine ⟨?_, ?_, ?_⟩
  · simp [keepPrediction, hcls, ge_iff_le]
  · simp [tileKeep, hcls, ge_iff_le]
  · intro hs
    constructor <;> simp [keepPrediction, tileKeep, hcls, hs, ge_iff_le]

theorem confidence_filter_boundary_witness :
    "bird" ∈ ["bird"] ∧
    ((keepPrediction ["bird"] (1 / 2) ⟨"bird", 1 / 2, (0, 0, 1, 1)⟩ = true ↔
        (1 / 2 : ℚ) ≤ 1 / 2) ∧
      (tileKeep ["bird"] (1 / 2) ⟨"bird", 1 / 2, (0, 0, 1, 1)⟩ = true ↔
        (1 / 2 : ℚ) ≤ 1 / 2) ∧
      ((1 / 2 : ℚ) = 1 / 2 →
        keepPrediction ["bird"] (1 / 2) ⟨"bird", 1 / 2, (0, 0, 1, 1)⟩ = true ∧
        tileKeep ["bird"] (1 / 2) ⟨"bird", 1 / 2, (0, 0, 1, 1)⟩ = true)) :=
  ⟨by simp,
    confidence_filter_boundary ["bird"] (1 / 2) ⟨"bird", 1 / 2, (0, 0, 1, 1)⟩ (by simp)⟩

/-- C9: `Recorder.start` while a recording is in progress does not begin a
new session: it returns the pending recording promise of the in-progress
session and leaves the recorder state unchanged. -/
theorem recorder_start_while_recording (s : RecorderSt) (freshPromise : ℕ)
    (h : s.isRecording = true) :
    Recorder.start s freshPromise = (s, s.recordingPromise) := by
  simp [Recorder.start, h]

theorem recorder_start_while_recording_witness :
    (⟨[4], true, some 0⟩ : RecorderSt).isRecording = true ∧
      Recorder.start ⟨[4], true, some 0⟩ 1 =
        ((⟨[4], true, some 0⟩ : RecorderSt), some 0) :=
  ⟨rfl, recorder_start_while_recording ⟨[4], true, some 0⟩ 1 rfl⟩

/-- C1 counterexample: starting from `idle`, a single detection cycle with a
bird present ends with the machine in `recording`, not `detecting`: the
positive branch of `detectionLoop` sets `detecting` and then calls
`startRecording` within the same cycle. -/
theorem detectionCycle_idle_to_recording_in_one_cycle :
    (detectionCycle idleInit true 0).state = .recording ∧
    (detectionCycle idleInit true 0).state ≠ .detecting := by
  decide

/-- C1 (amended): a single positive detection cycle from `idle` transitions
through `detecting` and synchronously into `recording` within that same
cycle, beginning a capture session; no second consecutive positive cycle is
required. -/
theorem detectionCycle_positive_from_idle_starts_recording (s : AppSt)
    (now : ℕ) (h : s.state = .idle) :
    (detectionCycle s true now).state = .recording ∧
    detectionCycle s true now =
      startRecordingSync { s with lastBirdSeenTime := some now, state := .detecting } now := by
  simp [detectionCycle, h, startRecordingSync]

theorem detectionCycle_positive_from_idle_starts_recording_witness :
    idleInit.state = .idle ∧
    ((detectionCycle idleInit true 5).state = .recording ∧
      detectionCycle idleInit true 5 =
        startRecordingSync
          { idleInit with lastBirdSeenTime := some 5, state := .detecting } 5) :=
  ⟨rfl, detectionCycle_positive_from_idle_starts_recording idleInit 5 rfl⟩

/-- C7: when a capture finalizes successfully (non-empty blob, save
succeeded), a clip is persisted and the machine ends in `paused` iff the stop
reason was `manual`; with reason `auto` it enters `cooldown`, and the
cooldown timer then takes it to `idle`. -/
theorem finalize_success_paused_iff_manual (s : AppSt) (blobSize : ℕ)
    (hsz : blobSize ≠ 0) :
    (finalizeRecording s (.ok blobSize) true).2 = true ∧
    ((finalizeRecording s (.ok blobSize) true).1.state = .paused ↔
      s.stopReason = some .manual) ∧
    (s.stopReason = some .auto →
      (finalizeRecording s (.ok blobSize) true).1.state = .cooldown ∧
      (cooldownElapsed (finalizeRecording s (.ok blobSize) true).1).state = .idle) := by
  by_cases hm : s.stopReason = some .manual <;>
    simp [finalizeRecording, cooldownElapsed, hsz, hm]

theorem finalize_success_paused_iff_manual_witness :
    (5 : ℕ) ≠ 0 ∧
    ((finalizeRecording stoppingAuto (.ok 5) true).2 = true ∧
      ((finalizeRecording stoppingAuto (.ok 5) true).1.state = .paused ↔
        stoppingAuto.stopReason = some .manual) ∧
      (stoppingAuto.stopReason = some .auto →
        (finalizeRecording stoppingAuto (.ok 5) true).1.state = .cooldown ∧
        (cooldownElapsed (finalizeRecording stoppingAuto (.ok 5) true).1).state = .idle)) :=
  ⟨by decide, finalize_success_paused_iff_manual stoppingAuto 5 (by decide)⟩

theorem foldl_pushChunk_all_zero :
    ∀ (events : List ℕ), (∀ e ∈ events, e = 0) →
      ∀ acc : List ℕ, events.foldl pushChunk acc = acc
  | [], _, _ => rfl
  | e :: rest, h, acc => by
    have he : e = 0 := h e (List.mem_cons_self e rest)
    have hr : ∀ x ∈ rest, x = 0 := fun x hx => h x (List.mem_cons_of_mem e hx)
    simp [List.foldl_cons, pushChunk, he, foldl_pushChunk_all_zero rest hr]

/-- C8: a capture finalizing with zero bytes of video data never yields a
persisted clip: zero-size `ondataavailable` events accumulate no chunks, the
recorder `onstop` handler rejects the empty chunk list, and the app-side
finalization of either a rejected promise or a zero-size blob performs no
save and returns the machine to `idle`. -/
theorem empty_capture_never_persisted (events : List ℕ)
    (hsum : events.sum = 0) (s : AppSt) (saveOk : Bool) (msg : String) :
    recordedChunks events = [] ∧
    (∃ e, recorderOnStop (recordedChunks events) = .error e) ∧
    (finalizeRecording s (.error msg) saveOk).1.state = .idle ∧
    (finalizeRecording s (.error msg) saveOk).2 = false ∧
    (finalizeRecording s (.ok 0) saveOk).1.state = .idle ∧
    (finalizeRecording s (.ok 0) saveOk).2 = false := by
  have hz : ∀ e ∈ events, e = 0 := by
    intro e he
    exact Nat.eq_zero_of_le_zero (hsum ▸ List.le_sum_of_mem he)
  have hchunks : recordedChunks events = [] :=
    foldl_pushChunk_all_zero events hz []
  refine ⟨hchunks, ⟨"No data recorded - chunks empty", ?_⟩, ?_, ?_, ?_, ?_⟩
  · rw [hchunks]; rfl
  all_goals simp [finalizeRecording]

theorem empty_capture_never_persisted_witness :
    ([0, 0] : List ℕ).sum = 0 ∧
    (recordedChunks [0, 0] = [] ∧
      (∃ e, recorderOnStop (recordedChunks [0, 0]) = .error e) ∧
      (finalizeRecording stoppingAuto (.error "x") true).1.state = .idle ∧
      (finalizeRecording stoppingAuto (.error "x") true).2 = false ∧
      (finalizeRecording stoppingAuto (.ok 0) true).1.state = .idle ∧
      (finalizeRecording stoppingAuto (.ok 0) true).2 = false) :=
  ⟨rfl, empty_capture_never_persisted [0, 0] rfl stoppingAuto true "x"⟩

theorem iou_comm (a b : BBox) : iou a b = iou b a := by
  simp only [iou]
  rw [max_comm a.1 b.1, max_comm a.2.1 b.2.1,
      min_comm (a.1 + a.2.2.1) (b.1 + b.2.2.1),
      min_comm (a.2.1 + a.2.2.2) (b.2.1 + b.2.2.2),
      add_comm (a.2.2.1 * a.2.2.2) (b.2.2.1 * b.2.2.2)]

theorem nmsLoop_sublist (thr : ℚ) :
    ∀ l : List Det, List.Sublist (nmsLoop thr l) l
  | [] => by simp [nmsLoop]
  | d :: rest => by
    rw [nmsLoop]
    exact List.Sublist.cons₂ d ((nmsLoop_sublist thr _).trans (List.filter_sublist _))
termination_by l => l.length
decreasing_by
  simp only [List.length_cons]
  exact Nat.lt_succ_of_le (List.length_filter_le _ _)

theorem nmsLoop_pairwise (thr : ℚ) : ∀ l : List Det,
    (nmsLoop thr l).Pairwise (fun d e => suppresses thr d e = false)
  | [] => by simp [nmsLoop]
  | d :: rest => by
    rw [nmsLoop]
    refine List.Pairwise.cons ?_ (nmsLoop_pairwise thr _)
    intro e he
    have hmem : e ∈ rest.filter (fun e => !(suppresses thr d e)) :=
      (nmsLoop_sublist thr _).subset he
    have hp := List.of_mem_filter hmem
    simpa using hp
termination_by l => l.length
decreasing_by
  simp only [List.length_cons]
  exact Nat.lt_succ_of_le (List.length_filter_le _ _)

theorem nmsLoop_eq_self (thr : ℚ) :
    ∀ l : List Det, l.Pairwise (fun d e => suppresses thr d e = false) →
      nmsLoop thr l = l
  | [], _ => by simp [nmsLoop]
  | d :: rest, h => by
    rw [nmsLoop]
    rcases List.pairwise_cons.mp h with ⟨h1, h2⟩
    have hfilter : rest.filter (fun e => !(suppresses thr d e)) = rest :=
      List.filter_eq_self.mpr fun e he => by simp [h1 e he]
    rw [hfilter, nmsLoop_eq_self thr rest h2]
termination_by l _ => l.length
decreasing_by
  simp only [List.length_cons]
  exact Nat.lt_succ_self _

/-- C4: for every input detection list and every threshold, no two
detections kept by `nms` that share a class have IoU strictly above the
threshold (in either comparison order, `iou` being symmetric). -/
theorem nms_no_overlapping_same_label (thr : ℚ) (dets : List Det) :
    (nms thr dets).Pairwise
      (fun d e => d.cls = e.cls →
        iou d.bbox e.bbox ≤ thr ∧ iou e.bbox d.bbox ≤ thr) := by
  unfold nms
  refine (nmsLoop_pairwise thr (dets.mergeSort scoreDesc)).imp ?_
  intro d e hde hcls
  have hns : ¬(d.cls = e.cls ∧ iou d.bbox e.bbox > thr) := by
    simpa [suppresses] using hde
  have hle : iou d.bbox e.bbox ≤ thr := by
    by_contra hgt
    exact hns ⟨hcls, lt_of_not_le hgt⟩
  exact ⟨hle, by rw [iou_comm]; exact hle⟩

/-- C5: `nms` is idempotent: merging an already-merged list again with the
same threshold returns it unchanged.  The kept list is still sorted by score
descending, so the stable sort leaves it in place, and no kept detection
suppresses another kept one. -/
theorem nms_idempotent (thr : ℚ) (dets : List Det) :
    nms thr (nms thr dets) = nms thr dets := by
  have htrans : ∀ a b c : Det,
      scoreDesc a b = true → scoreDesc b c = true → scoreDesc a c = true := by
    intro a b c hab hbc
    simp only [scoreDesc, decide_eq_true_eq] at *
    exact le_trans hbc hab
  have htotal : ∀ a b : Det, (scoreDesc a b || scoreDesc b a) = true := by
    intro a b
    rcases le_total b.score a.score with h | h <;> simp [scoreDesc, h]
  have hsorted : (dets.mergeSort scoreDesc).Pairwise (fun a b => scoreDesc a b = true) :=
    List.sorted_mergeSort htrans htotal dets
  have hkept : (nms thr dets).Pairwise (fun a b => scoreDesc a b = true) := by
    unfold nms
    exact hsorted.sublist (nmsLoop_sublist thr _)
  have hpw : (nms thr dets).Pairwise (fun d e => suppresses thr d e = false) := by
    unfold nms
    exact nmsLoop_pairwise thr _
  conv_lhs => rw [nms]
  rw [List.mergeSort_of_sorted hkept]
  exact nmsLoop_eq_self thr _ hpw

theorem one_le_denom (grid : ℕ) (overlap : ℚ) (hgrid : 2 ≤ grid)
    (h1 : overlap < 1) :
    1 ≤ (grid : ℚ) - ((grid : ℚ) - 1) * overlap := by
  have hg : (2 : ℚ) ≤ (grid : ℚ) := by exact_mod_cast hgrid
  have hnn : (0 : ℚ) ≤ (grid : ℚ) - 1 := by linarith
  have := mul_le_mul_of_nonneg_left h1.le hnn
  nlinarith

theorem tileW_le (W : ℤ) (grid : ℕ) (overlap : ℚ) (hW : 0 ≤ W)
    (hgrid : 2 ≤ grid) (h1 : overlap < 1) :
    tileW W grid overlap ≤ W := by
  rw [tileW]
  have hd := one_le_denom grid overlap hgrid h1
  have hdiv : (W : ℚ) / ((grid : ℚ) - ((grid : ℚ) - 1) * overlap) ≤ (W : ℚ) :=
    div_le_self (by exact_mod_cast hW) hd
  exact_mod_cast Int.ceil_le.mpr hdiv

theorem one_le_tileW (W : ℤ) (grid : ℕ) (overlap : ℚ) (hW : 1 ≤ W)
    (hgrid : 2 ≤ grid) (h1 : overlap < 1) :
    1 ≤ tileW W grid overlap := by
  rw [tileW]
  have hd := one_le_denom grid overlap hgrid h1
  have hpos : 0 < (W : ℚ) / ((grid : ℚ) - ((grid : ℚ) - 1) * overlap) :=
    div_pos (by exact_mod_cast hW) (by linarith)
  have := Int.ceil_pos.mpr hpos
  omega

theorem stepX_nonneg (W : ℤ) (grid : ℕ) (overlap : ℚ) (hW : 1 ≤ W)
    (hgrid : 2 ≤ grid) (h1 : overlap < 1) :
    0 ≤ stepX W grid overlap := by
  rw [stepX]
  apply Int.floor_nonneg.mpr
  have htw : (0 : ℚ) ≤ (tileW W grid overlap : ℚ) := by
    exact_mod_cast le_trans zero_le_one (one_le_tileW W grid overlap hW hgrid h1)
  have hov : (0 : ℚ) ≤ 1 - overlap := by linarith
  exact mul_nonneg htw hov

theorem tileOrigin_bounds (W : ℤ) (grid : ℕ) (overlap : ℚ) (hW : 1 ≤ W)
    (hgrid : 2 ≤ grid) (h1 : overlap < 1) (col : ℕ) :
    0 ≤ tileOrigin W grid overlap col ∧
      tileOrigin W grid overlap col + tileW W grid overlap ≤ W := by
  have hstep := stepX_nonneg W grid overlap hW hgrid h1
  have htle := tileW_le W grid overlap (by omega) hgrid h1
  constructor
  · exact le_min (mul_nonneg (by positivity) hstep) (by omega)
  · have := min_le_right ((col : ℤ) * stepX W grid overlap)
      (W - tileW W grid overlap)
    rw [tileOrigin]
    omega

theorem cropW_le (W : ℤ) (z : ℚ) (hW : 0 ≤ W) (hz : 1 ≤ z) :
    cropW W z ≤ W := by
  rw [cropW, jsRound]
  have hdiv : (W : ℚ) / z ≤ (W : ℚ) := div_le_self (by exact_mod_cast hW) hz
  have hfl : ⌊(W : ℚ) / z + 1 / 2⌋ < W + 1 := by
    apply Int.floor_lt.mpr
    push_cast
    linarith
  omega

theorem cropOffsetX_nonneg (W : ℤ) (z : ℚ) (hW : 0 ≤ W) (hz : 1 ≤ z) :
    0 ≤ cropOffsetX W z := by
  have hm : 0 ≤ W - cropW W z := by
    have := cropW_le W z hW hz
    omega
  rw [cropOffsetX, jsRound]
  apply Int.floor_nonneg.mpr
  have : (0 : ℚ) ≤ ((W - cropW W z : ℤ) : ℚ) := by exact_mod_cast hm
  linarith

theorem cropOffsetX_add_cropW_le (W : ℤ) (z : ℚ) (hW : 0 ≤ W) (hz : 1 ≤ z) :
    cropOffsetX W z + cropW W z ≤ W := by
  have hm : 0 ≤ W - cropW W z := by
    have := cropW_le W z hW hz
    omega
  have hmq : (0 : ℚ) ≤ ((W - cropW W z : ℤ) : ℚ) := by exact_mod_cast hm
  rw [cropOffsetX, jsRound]
  have hfl : ⌊((W - cropW W z : ℤ) : ℚ) / 2 + 1 / 2⌋ < (W - cropW W z) + 1 := by
    apply Int.floor_lt.mpr
    push_cast at hmq ⊢
    linarith
  omega



/-- C6: for every frame size `W, H ≥ 1`, `tileGrid ≥ 2`, `tileOverlap ∈ [0,1)`
and software zoom `z ≥ 1` with a non-degenerate crop, every tile origin
`min(col·step, size − tile)` lies within the working (cropped) frame together
with its tile, the centered crop lies within the original frame, and any
scorer box contained in its tile remaps through `remapBBox` into
`[0, W] × [0, H]`. -/
theorem detect_box_in_frame (W H : ℤ) (grid : ℕ) (overlap z : ℚ)
    (hW : 1 ≤ W) (hH : 1 ≤ H) (hgrid : 2 ≤ grid)
    (h0 : 0 ≤ overlap) (h1 : overlap < 1) (hz : 1 ≤ z)
    (hcw : 1 ≤ cropW W z) (hch : 1 ≤ cropW H z)
    (row col : ℕ) (hrow : row < grid) (hcol : col < grid) :
    (0 ≤ tileOrigin (cropW W z) grid overlap col ∧
      tileOrigin (cropW W z) grid overlap col +
        tileW (cropW W z) grid overlap ≤ cropW W z) ∧
    (0 ≤ tileOrigin (cropW H z) grid overlap row ∧
      tileOrigin (cropW H z) grid overlap row +
        tileW (cropW H z) grid overlap ≤ cropW H z) ∧
    (0 ≤ cropOffsetX W z ∧ cropOffsetX W z + cropW W z ≤ W) ∧
    (0 ≤ cropOffsetX H z ∧ cropOffsetX H z + cropW H z ≤ H) ∧
    (∀ bx b1 bw bh : ℚ, 0 ≤ bx → 0 ≤ b1 → 0 ≤ bw → 0 ≤ bh →
      bx + bw ≤ (tileW (cropW W z) grid overlap : ℚ) →
      b1 + bh ≤ (tileW (cropW H z) grid overlap : ℚ) →
      0 ≤ (remapBBox (tileOrigin (cropW W z) grid overlap col)
            (tileOrigin (cropW H z) grid overlap row)
            (cropOffsetX W z) (cropOffsetX H z) (bx, b1, bw, bh)).1 ∧
      (remapBBox (tileOrigin (cropW W z) grid overlap col)
            (tileOrigin (cropW H z) grid overlap row)
            (cropOffsetX W z) (cropOffsetX H z) (bx, b1, bw, bh)).1 +
          (remapBBox (tileOrigin (cropW W z) grid overlap col)
            (tileOrigin (cropW H z) grid overlap row)
            (cropOffsetX W z) (cropOffsetX H z) (bx, b1, bw, bh)).2.2.1 ≤ (W : ℚ) ∧
      0 ≤ (remapBBox (tileOrigin (cropW W z) grid overlap col)
            (tileOrigin (cropW H z) grid overlap row)
            (cropOffsetX W z) (cropOffsetX H z) (bx, b1, bw, bh)).2.1 ∧
      (remapBBox (tileOrigin (cropW W z) grid overlap col)
            (tileOrigin (cropW H z) grid overlap row)
            (cropOffsetX W z) (cropOffsetX H z) (bx, b1, bw, bh)).2.1 +
          (remapBBox (tileOrigin (cropW W z) grid overlap col)
            (tileOrigin (cropW H z) grid overlap row)
            (cropOffsetX W z) (cropOffsetX H z) (bx, b1, bw, bh)).2.2.2 ≤ (H : ℚ)) := by
  obtain ⟨hx0, hx1⟩ := tileOrigin_bounds (cropW W z) grid overlap hcw hgrid h1 col
  obtain ⟨hy0, hy1⟩ := tileOrigin_bounds (cropW H z) grid overlap hch hgrid h1 row
  have hcx0 := cropOffsetX_nonneg W z (by omega) hz
  have hcx1 := cropOffsetX_add_cropW_le W z (by omega) hz
  have hcy0 := cropOffsetX_nonneg H z (by omega) hz
  have hcy1 := cropOffsetX_add_cropW_le H z (by omega) hz
  refine ⟨⟨hx0, hx1⟩, ⟨hy0, hy1⟩, ⟨hcx0, hcx1⟩, ⟨hcy0, hcy1⟩, ?_⟩
  intro bx b1 bw bh hbx hb1 hbw hbh hxw hyh
  simp only [remapBBox]
  have hx0q : (0 : ℚ) ≤ (tileOrigin (cropW W z) grid overlap col : ℚ) := by
    exact_mod_cast hx0
  have hy0q : (0 : ℚ) ≤ (tileOrigin (cropW H z) grid overlap row : ℚ) := by
    exact_mod_cast hy0
  have hcx0q : (0 : ℚ) ≤ (cropOffsetX W z : ℚ) := by exact_mod_cast hcx0
  have hcy0q : (0 : ℚ) ≤ (cropOffsetX H z : ℚ) := by exact_mod_cast hcy0
  have hx1q : (tileOrigin (cropW W z) grid overlap col : ℚ) +
      (tileW (cropW W z) grid overlap : ℚ) ≤ (cropW W z : ℚ) := by
    exact_mod_cast hx1
  have hy1q : (tileOrigin (cropW H z) grid overlap row : ℚ) +
      (tileW (cropW H z) grid overlap : ℚ) ≤ (cropW H z : ℚ) := by
    exact_mod_cast hy1
  have hcx1q : (cropOffsetX W z : ℚ) + (cropW W z : ℚ) ≤ (W : ℚ) := by
    exact_mod_cast hcx1
  have hcy1q : (cropOffsetX H z : ℚ) + (cropW H z : ℚ) ≤ (H : ℚ) := by
    exact_mod_cast hcy1
  refine ⟨by linarith, by linarith, by linarith, by linarith⟩



theorem detect_box_in_frame_witness :
    (1 : ℤ) ≤ cropW 1280 1 ∧ (1 : ℤ) ≤ cropW 720 1 ∧
    (0 ≤ tileOrigin (cropW 1280 1) 2 (1 / 4) 1 ∧
      tileOrigin (cropW 1280 1) 2 (1 / 4) 1 + tileW (cropW 1280 1) 2 (1 / 4) ≤
        cropW 1280 1) ∧
    (0 ≤ cropOffsetX 1280 1 ∧ cropOffsetX 1280 1 + cropW 1280 1 ≤ 1280) ∧
    (0 ≤ (remapBBox (tileOrigin (cropW 1280 1) 2 (1 / 4) 1)
          (tileOrigin (cropW 720 1) 2 (1 / 4) 1)
          (cropOffsetX 1280 1) (cropOffsetX 720 1) (0, 0, 10, 10)).1 ∧
      (remapBBox (tileOrigin (cropW 1280 1) 2 (1 / 4) 1)
          (tileOrigin (cropW 720 1) 2 (1 / 4) 1)
          (cropOffsetX 1280 1) (cropOffsetX 720 1) (0, 0, 10, 10)).1 +
        (remapBBox (tileOrigin (cropW 1280 1) 2 (1 / 4) 1)
          (tileOrigin (cropW 720 1) 2 (1 / 4) 1)
          (cropOffsetX 1280 1) (cropOffsetX 720 1) (0, 0, 10, 10)).2.2.1 ≤ (1280 : ℚ) ∧
      0 ≤ (remapBBox (tileOrigin (cropW 1280 1) 2 (1 / 4) 1)
          (tileOrigin (cropW 720 1) 2 (1 / 4) 1)
          (cropOffsetX 1280 1) (cropOffsetX 720 1) (0, 0, 10, 10)).2.1 ∧
      (remapBBox (tileOrigin (cropW 1280 1) 2 (1 / 4) 1)
          (tileOrigin (cropW 720 1) 2 (1 / 4) 1)
          (cropOffsetX 1280 1) (cropOffsetX 720 1) (0, 0, 10, 10)).2.1 +
        (remapBBox (tileOrigin (cropW 1280 1) 2 (1 / 4) 1)
          (tileOrigin (cropW 720 1) 2 (1 / 4) 1)
          (cropOffsetX 1280 1) (cropOffsetX 720 1) (0, 0, 10, 10)).2.2.2 ≤ (720 : ℚ)) := by
  have hcw : cropW 1280 1 = 1280 := by norm_num [cropW, jsRound, Int.floor_eq_iff]
  have hch : cropW 720 1 = 720 := by norm_num [cropW, jsRound, Int.floor_eq_iff]
  have h := detect_box_in_frame 1280 720 2 (1 / 4) 1 (by norm_num) (by norm_num)
    (by norm_num) (by norm_num) (by norm_num) (by norm_num)
    (by rw [hcw]; norm_num) (by rw [hch]; norm_num) 1 1 (by norm_num) (by norm_num)
  refine ⟨by rw [hcw]; norm_num, by rw [hch]; norm_num, h.1, h.2.2.1, ?_⟩
  exact h.2.2.2.2 0 0 10 10 (by norm_num) (by norm_num) (by norm_num) (by norm_num)
    (by rw [hcw, tileW_1280]; norm_num) (by rw [hch, tileW_720]; norm_num)

end Birdwatcher
